import Mathlib

/-!
Verification of the interactive widget behavior of `Button` and
`ButtonAnimated` from `src/ftxui/component/button.cpp`, together with the
configuration structures of `include/ftxui/component/component_options.hpp`.

The widgets are shallowly embedded as pure state-transition functions:
* `Button.OnEvent` / `ButtonAnimated.OnEvent` embed the two `OnEvent`
  overrides; the parent-tree collaborators (`Focused()`, `CaptureMouse`)
  are passed as boolean inputs, and the side effects the widget requests
  from the tree (`TakeFocus()`, `CaptureMouse(event)`) are returned as
  flags of the outcome.
* `Button.Render` / `ButtonAnimated.Render` embed the two `Render`
  overrides; the `reflect(box_)` decorator is embedded as the layout
  rectangle handed back by the composition pass and recorded into the
  widget's `box_` field.
* Floating point intensity values are embedded as rationals: the code
  paths verified here only assign the constants `0`, `0.5` and `1`,
  each exactly representable in `float`.
-/

namespace Ftxui

/-- `Mouse::Button` from ftxui/component/mouse.hpp. -/
inductive MouseButton
  | Left
  | Middle
  | Right
  | NoButton
  | WheelUp
  | WheelDown
deriving DecidableEq, Repr

/-- `Mouse::Motion` from ftxui/component/mouse.hpp. -/
inductive MouseMotion
  | Released
  | Pressed
deriving DecidableEq, Repr

/-- The `Mouse` payload of a mouse event: button, motion and coordinates. -/
structure Mouse where
  button : MouseButton
  motion : MouseMotion
  x : Int
  y : Int
deriving DecidableEq, Repr

/-- `Event` from ftxui/component/event.hpp, restricted to the distinctions
`OnEvent` makes: `event.is_mouse()` (with its `Mouse` payload),
`event == Event::Return`, and every other event. A mouse event is never
equal to `Event::Return`. -/
inductive Event
  | mouse (m : Mouse)
  | Return
  | other
deriving DecidableEq, Repr

/-- Modelled from the spec: `Box` is declared in ftxui/screen/box.hpp,
which is not part of this fragment. The spec (§3, GLOSSARY) describes
the hit region as the last-rendered screen rectangle, used for
pointer-event containment tests. -/
structure Box where
  x_min : Int
  x_max : Int
  y_min : Int
  y_max : Int
deriving DecidableEq, Repr

/-- Modelled from the spec: `Box::Contain` (ftxui/screen/box.hpp, not in
this fragment) is rectangle containment of a coordinate pair. -/
def Box.Contain (b : Box) (x y : Int) : Bool :=
  decide (b.x_min ≤ x) && decide (x ≤ b.x_max) &&
  decide (b.y_min ≤ y) && decide (y ≤ b.y_max)

/-- The widget's `box_` field. `none` is the stale, pre-first-render
state. Modelled from the spec: the default-initialized `Box` comes from
ftxui/screen/box.hpp, absent from src/; the spec (§3) requires
hit-testing against the stale region to treat it as
empty/non-containing, which `containOpt none x y = false` embeds. -/
def containOpt : Option Box → Int → Int → Bool
  | none, _, _ => false
  | some b, x, y => b.Contain x y

/-- `ButtonOption` from component_options.hpp. -/
structure ButtonOption where
  border : Bool
deriving DecidableEq, Repr

/-- Default `ButtonOption`: `bool border = true`. -/
def ButtonOption.default : ButtonOption := ⟨true⟩

/-- `BorderStyle` from ftxui/dom/elements.hpp (external, data-only):
the styles a `ButtonAnimatedOption` may name. -/
inductive BorderStyle
  | LIGHT
  | HEAVY
  | DOUBLE
  | ROUNDED
  | EMPTY
deriving DecidableEq, Repr

/-- `Color` from ftxui/screen/color.hpp (external, data-only): the
named color endpoints used by `ButtonAnimatedOption`. -/
inductive Color
  | White
  | GrayLight
  | GrayDark
  | Black
deriving DecidableEq, Repr

/-- `animation::Easing::Function` from ftxui/component/animation.hpp
(external, data-only): the easing choices named by the options. -/
inductive Easing
  | Linear
  | QuadraticOut
deriving DecidableEq, Repr

/-- `ButtonAnimatedOption` from component_options.hpp. The duration is
kept in milliseconds. -/
structure ButtonAnimatedOption where
  border : Option BorderStyle
  foreground_color_focused : Color
  foreground_color : Color
  background_color_focused : Color
  background_color : Color
  animation_easing : Easing
  animation_duration : Nat
deriving DecidableEq, Repr

/-- The default `ButtonAnimatedOption` member initializers:
`border = LIGHT`, white-on-gray focused colors, `QuadraticOut` easing,
200 ms duration. -/
def ButtonAnimatedOption.default : ButtonAnimatedOption :=
  ⟨some BorderStyle.LIGHT, Color.White, Color.GrayLight,
   Color.GrayDark, Color.Black, Easing.QuadraticOut, 200⟩

/-- Modelled from the spec: `animation::Animator`
(ftxui/component/animation.hpp) is not part of this fragment. Per §4.2
and §6, an animator owns a target `to`, a duration and an easing
function, and eases the attached value toward `to` on external frame
ticks; constructing a fresh animator starts the transition from the
value's current state without writing it ("no snapping"). The target
accessor `to()` is embedded as the field `to_` (`to` is reserved). -/
structure Animator where
  to_ : ℚ
  duration : Nat
  easing : Easing
deriving DecidableEq, Repr

/-- State of a `Button::Impl`: the recorded hit rectangle `box_` and the
number of times `on_click_` has been invoked (the embedding of the
external callback). -/
structure ButtonState where
  box : Option Box
  clicks : Nat
deriving DecidableEq, Repr

/-- State of a `ButtonAnimated::Impl`: `box_`, the `on_click_`
invocation count, the interpolation value `animation_` and the current
`animator_`. -/
structure ButtonAnimatedState where
  box : Option Box
  clicks : Nat
  animation : ℚ
  animator : Animator
deriving DecidableEq, Repr

/-- Initial `ButtonAnimated::Impl` state for a given `box_` state:
`float animation_ = 0` and `animator_ = animation::Animator(&animation_)`,
whose default target is the attached value, i.e. `0`. -/
def ButtonAnimatedState.init (box : Option Box) : ButtonAnimatedState :=
  ⟨box, 0, 0, ⟨0, 0, Easing.Linear⟩⟩

/-- Outcome of one `OnEvent` call on a `Button`: the consumed flag the
handler returns, the successor state, and whether the handler called
`TakeFocus()` resp. `CaptureMouse(event)` on the parent tree. -/
structure EventOutcome where
  consumed : Bool
  state : ButtonState
  focusRequested : Bool
  captureRequested : Bool
deriving DecidableEq, Repr

/-- Outcome of one `OnEvent` call on a `ButtonAnimated`. -/
structure AnimatedEventOutcome where
  consumed : Bool
  state : ButtonAnimatedState
  focusRequested : Bool
  captureRequested : Bool
deriving DecidableEq, Repr

/-- `Button::Impl::OnEvent`. `focused` embeds the parent-tree
`Focused()` flag available to the handler (the source body never reads
it); `captureOk` embeds whether `CaptureMouse(event)` would be granted
by the tree for this event. -/
def Button.OnEvent (focused : Bool) (captureOk : Bool)
    (s : ButtonState) (e : Event) : EventOutcome :=
  match e with
  | Event.mouse m =>
    if containOpt s.box m.x m.y then
      if !captureOk then
        ⟨false, s, false, true⟩
      else
        if m.button = MouseButton.Left ∧ m.motion = MouseMotion.Pressed then
          ⟨true, { s with clicks := s.clicks + 1 }, true, true⟩
        else
          ⟨false, s, true, true⟩
    else
      ⟨false, s, false, false⟩
  | Event.Return => ⟨true, { s with clicks := s.clicks + 1 }, false, false⟩
  | Event.other => ⟨false, s, false, false⟩

/-- `ButtonAnimated::Impl::SetAnimationTarget`: replace `animator_`
with a fresh animator toward `target` with the option's duration and
easing; the attached value `animation_` is not written. -/
def ButtonAnimated.SetAnimationTarget (opt : ButtonAnimatedOption)
    (s : ButtonAnimatedState) (target : ℚ) : ButtonAnimatedState :=
  { s with animator := ⟨target, opt.animation_duration, opt.animation_easing⟩ }

/-- `ButtonAnimated::Impl::OnClick`: invoke `on_click_()`, set
`animation_ = 0.5f`, then retarget the animator to `1.f`. -/
def ButtonAnimated.OnClick (opt : ButtonAnimatedOption)
    (s : ButtonAnimatedState) : ButtonAnimatedState :=
  ButtonAnimated.SetAnimationTarget opt
    { s with clicks := s.clicks + 1, animation := 1/2 } 1

/-- `ButtonAnimated::Impl::OnEvent`; parameters as for
`Button.OnEvent`. -/
def ButtonAnimated.OnEvent (opt : ButtonAnimatedOption)
    (focused : Bool) (captureOk : Bool)
    (s : ButtonAnimatedState) (e : Event) : AnimatedEventOutcome :=
  match e with
  | Event.mouse m =>
    if containOpt s.box m.x m.y then
      if !captureOk then
        ⟨false, s, false, true⟩
      else
        if m.button = MouseButton.Left ∧ m.motion = MouseMotion.Pressed then
          ⟨true, ButtonAnimated.OnClick opt s, true, true⟩
        else
          ⟨false, s, true, true⟩
    else
      ⟨false, s, false, false⟩
  | Event.Return => ⟨true, ButtonAnimated.OnClick opt s, false, false⟩
  | Event.other => ⟨false, s, false, false⟩

/-- The border decorator a render composes in: `border` (a visible
frame), `borderEmpty` (blank padding glyphs, no visible frame), or
`nothing` (the identity decorator). -/
inductive BorderDeco
  | border
  | borderEmpty
  | nothing
deriving DecidableEq, Repr

/-- The style decorator of `Button::Impl::Render`: `inverted` when
focused, otherwise `nothing`. -/
inductive StyleDeco
  | inverted
  | nothing
deriving DecidableEq, Repr

/-- `Color::Interpolate(t, a, b)` as it appears in the render
description: the blend factor together with the two endpoints. The
external interpolation is a pure function of these three fields, so
equality of the triples gives equality of the produced colors. -/
structure InterpColor where
  t : ℚ
  a : Color
  b : Color
deriving DecidableEq, Repr

/-- The render description `Button::Impl::Render` assembles:
`text(*label_) | my_border | style | reflect(box_)`. -/
structure ButtonElement where
  label : String
  my_border : BorderDeco
  style : StyleDeco
deriving DecidableEq, Repr

/-- The render description `ButtonAnimated::Impl::Render` assembles:
`text(*label_) | my_border | color(...) | bgcolor(...) | reflect(box_)`. -/
structure AnimatedElement where
  label : String
  my_border : BorderDeco
  fg : InterpColor
  bg : InterpColor
deriving DecidableEq, Repr

/-- `Button::Impl::Render`. `focused` embeds `Focused()`; `layout` is
the rectangle the composition pass assigns to the element, which
`reflect(box_)` writes back into `box_`. -/
def Button.Render (opt : ButtonOption) (label : String) (focused : Bool)
    (s : ButtonState) (layout : Box) : ButtonElement × ButtonState :=
  (⟨label,
    if opt.border then BorderDeco.border else BorderDeco.nothing,
    if focused then StyleDeco.inverted else StyleDeco.nothing⟩,
   { s with box := some layout })

/-- `ButtonAnimated::Impl::Render`: compute the desired target (1 when
focused, 0 otherwise), retarget the animator when it differs from
`animator_.to()`, then assemble the interpolated-color description;
`my_border` is the constant `borderEmpty`. -/
def ButtonAnimated.Render (opt : ButtonAnimatedOption) (label : String)
    (focused : Bool) (s : ButtonAnimatedState) (layout : Box) :
    AnimatedElement × ButtonAnimatedState :=
  let target : ℚ := if focused then 1 else 0
  let s1 := if target ≠ s.animator.to_
            then ButtonAnimated.SetAnimationTarget opt s target
            else s
  (⟨label,
    BorderDeco.borderEmpty,
    ⟨s1.animation, opt.foreground_color, opt.foreground_color_focused⟩,
    ⟨s1.animation, opt.background_color, opt.background_color_focused⟩⟩,
   { s1 with box := some layout })

end Ftxui

namespace Ftxui

/-- C1: for both `Button` and `ButtonAnimated`, a left-button press
mouse event whose coordinates lie inside the recorded hit region, with
the mouse capture granted, invokes the activation callback exactly once
(the click counter increases by one) and `OnEvent` returns
consumed. -/
theorem left_press_inside_activates
    (focused : Bool) (s : ButtonState)
    (opt : ButtonAnimatedOption) (sa : ButtonAnimatedState) (m : Mouse)
    (hin : containOpt s.box m.x m.y = true)
    (hina : containOpt sa.box m.x m.y = true)
    (hb : m.button = MouseButton.Left)
    (hm : m.motion = MouseMotion.Pressed) :
    (Button.OnEvent focused true s (Event.mouse m)).consumed = true ∧
    (Button.OnEvent focused true s (Event.mouse m)).state.clicks
      = s.clicks + 1 ∧
    (ButtonAnimated.OnEvent opt focused true sa (Event.mouse m)).consumed
      = true ∧
    (ButtonAnimated.OnEvent opt focused true sa (Event.mouse m)).state.clicks
      = sa.clicks + 1 := by
  simp [Button.OnEvent, ButtonAnimated.OnEvent, ButtonAnimated.OnClick,
        ButtonAnimated.SetAnimationTarget, hin, hina, hb, hm]

/-- Witness for C1: a 3×2 region at the origin, a left press at (1, 0). -/
theorem left_press_inside_activates_witness :
    (Button.OnEvent false true ⟨some ⟨0, 2, 0, 1⟩, 0⟩
        (Event.mouse ⟨MouseButton.Left, MouseMotion.Pressed, 1, 0⟩)).consumed
      = true ∧
    (Button.OnEvent false true ⟨some ⟨0, 2, 0, 1⟩, 0⟩
        (Event.mouse ⟨MouseButton.Left, MouseMotion.Pressed, 1, 0⟩)).state.clicks
      = 0 + 1 ∧
    (ButtonAnimated.OnEvent ButtonAnimatedOption.default false true
        (ButtonAnimatedState.init (some ⟨0, 2, 0, 1⟩))
        (Event.mouse ⟨MouseButton.Left, MouseMotion.Pressed, 1, 0⟩)).consumed
      = true ∧
    (ButtonAnimated.OnEvent ButtonAnimatedOption.default false true
        (ButtonAnimatedState.init (some ⟨0, 2, 0, 1⟩))
        (Event.mouse ⟨MouseButton.Left, MouseMotion.Pressed, 1, 0⟩)).state.clicks
      = 0 + 1 :=
  left_press_inside_activates false ⟨some ⟨0, 2, 0, 1⟩, 0⟩
    ButtonAnimatedOption.default (ButtonAnimatedState.init (some ⟨0, 2, 0, 1⟩))
    ⟨MouseButton.Left, MouseMotion.Pressed, 1, 0⟩
    (by decide) (by decide) rfl rfl

/-- C2: for `ButtonAnimated`, after either activation path (left press
inside the region with capture granted, or the confirm key), the
intensity `animation_` equals exactly 0.5 and the animator's target
equals 1.0, whatever the prior intensity (the state, hence the prior
intensity, is universally quantified, so this includes intensity 1). -/
theorem animated_activation_perturbation
    (opt : ButtonAnimatedOption) (focused : Bool)
    (sa : ButtonAnimatedState) (m : Mouse)
    (hina : containOpt sa.box m.x m.y = true)
    (hb : m.button = MouseButton.Left)
    (hm : m.motion = MouseMotion.Pressed) :
    ((ButtonAnimated.OnEvent opt focused true sa
        (Event.mouse m)).state.animation = 1/2 ∧
     (ButtonAnimated.OnEvent opt focused true sa
        (Event.mouse m)).state.animator.to_ = 1) ∧
    ((ButtonAnimated.OnEvent opt focused true sa
        Event.Return).state.animation = 1/2 ∧
     (ButtonAnimated.OnEvent opt focused true sa
        Event.Return).state.animator.to_ = 1) := by
  simp [ButtonAnimated.OnEvent, ButtonAnimated.OnClick,
        ButtonAnimated.SetAnimationTarget, hina, hb, hm]

/-- Witness for C2: prior intensity exactly 1 with the animator already
resting at target 1; activation still yields intensity 0.5, target 1. -/
theorem animated_activation_perturbation_witness :
    ((ButtonAnimated.OnEvent ButtonAnimatedOption.default false true
        ⟨some ⟨0, 2, 0, 1⟩, 0, 1, ⟨1, 200, Easing.QuadraticOut⟩⟩
        (Event.mouse ⟨MouseButton.Left, MouseMotion.Pressed, 1, 0⟩)).state.animation
        = 1/2 ∧
     (ButtonAnimated.OnEvent ButtonAnimatedOption.default false true
        ⟨some ⟨0, 2, 0, 1⟩, 0, 1, ⟨1, 200, Easing.QuadraticOut⟩⟩
        (Event.mouse ⟨MouseButton.Left, MouseMotion.Pressed, 1, 0⟩)).state.animator.to_
        = 1) ∧
    ((ButtonAnimated.OnEvent ButtonAnimatedOption.default false true
        ⟨some ⟨0, 2, 0, 1⟩, 0, 1, ⟨1, 200, Easing.QuadraticOut⟩⟩
        Event.Return).state.animation = 1/2 ∧
     (ButtonAnimated.OnEvent ButtonAnimatedOption.default false true
        ⟨some ⟨0, 2, 0, 1⟩, 0, 1, ⟨1, 200, Easing.QuadraticOut⟩⟩
        Event.Return).state.animator.to_ = 1) :=
  animated_activation_perturbation ButtonAnimatedOption.default false
    ⟨some ⟨0, 2, 0, 1⟩, 0, 1, ⟨1, 200, Easing.QuadraticOut⟩⟩
    ⟨MouseButton.Left, MouseMotion.Pressed, 1, 0⟩
    (by decide) rfl rfl

/-- C3: for both widgets, a mouse event whose coordinates are outside
the hit region returns not-consumed, does not invoke the callback and
leaves the whole widget state (hit region, click count, intensity,
animator target) unchanged; neither focus nor capture is requested. -/
theorem pointer_outside_no_effect
    (focused captureOk : Bool) (s : ButtonState)
    (opt : ButtonAnimatedOption) (sa : ButtonAnimatedState) (m : Mouse)
    (hout : containOpt s.box m.x m.y = false)
    (houta : containOpt sa.box m.x m.y = false) :
    Button.OnEvent focused captureOk s (Event.mouse m)
      = ⟨false, s, false, false⟩ ∧
    ButtonAnimated.OnEvent opt focused captureOk sa (Event.mouse m)
      = ⟨false, sa, false, false⟩ := by
  simp [Button.OnEvent, ButtonAnimated.OnEvent, hout, houta]

/-- Witness for C3: a 3×2 region at the origin, a left press at
(−1, −1). -/
theorem pointer_outside_no_effect_witness :
    Button.OnEvent false true ⟨some ⟨0, 2, 0, 1⟩, 0⟩
        (Event.mouse ⟨MouseButton.Left, MouseMotion.Pressed, -1, -1⟩)
      = ⟨false, ⟨some ⟨0, 2, 0, 1⟩, 0⟩, false, false⟩ ∧
    ButtonAnimated.OnEvent ButtonAnimatedOption.default false true
        (ButtonAnimatedState.init (some ⟨0, 2, 0, 1⟩))
        (Event.mouse ⟨MouseButton.Left, MouseMotion.Pressed, -1, -1⟩)
      = ⟨false, ButtonAnimatedState.init (some ⟨0, 2, 0, 1⟩), false, false⟩ :=
  pointer_outside_no_effect false true ⟨some ⟨0, 2, 0, 1⟩, 0⟩
    ButtonAnimatedOption.default (ButtonAnimatedState.init (some ⟨0, 2, 0, 1⟩))
    ⟨MouseButton.Left, MouseMotion.Pressed, -1, -1⟩
    (by decide) (by decide)

/-- C4: for both widgets, a mouse event inside the hit region whose
capture request is denied returns not-consumed, requests no focus, does
not invoke the callback and leaves the widget state unchanged (the
capture request itself was made, and denied). -/
theorem capture_denied_no_effect
    (focused : Bool) (s : ButtonState)
    (opt : ButtonAnimatedOption) (sa : ButtonAnimatedState) (m : Mouse)
    (hin : containOpt s.box m.x m.y = true)
    (hina : containOpt sa.box m.x m.y = true) :
    Button.OnEvent focused false s (Event.mouse m)
      = ⟨false, s, false, true⟩ ∧
    ButtonAnimated.OnEvent opt focused false sa (Event.mouse m)
      = ⟨false, sa, false, true⟩ := by
  simp [Button.OnEvent, ButtonAnimated.OnEvent, hin, hina]

/-- Witness for C4: a left press at (1, 0) inside a 3×2 region at the
origin, capture denied. -/
theorem capture_denied_no_effect_witness :
    Button.OnEvent false false ⟨some ⟨0, 2, 0, 1⟩, 0⟩
        (Event.mouse ⟨MouseButton.Left, MouseMotion.Pressed, 1, 0⟩)
      = ⟨false, ⟨some ⟨0, 2, 0, 1⟩, 0⟩, false, true⟩ ∧
    ButtonAnimated.OnEvent ButtonAnimatedOption.default false false
        (ButtonAnimatedState.init (some ⟨0, 2, 0, 1⟩))
        (Event.mouse ⟨MouseButton.Left, MouseMotion.Pressed, 1, 0⟩)
      = ⟨false, ButtonAnimatedState.init (some ⟨0, 2, 0, 1⟩), false, true⟩ :=
  capture_denied_no_effect false ⟨some ⟨0, 2, 0, 1⟩, 0⟩
    ButtonAnimatedOption.default (ButtonAnimatedState.init (some ⟨0, 2, 0, 1⟩))
    ⟨MouseButton.Left, MouseMotion.Pressed, 1, 0⟩
    (by decide) (by decide)

/-- C5: for both widgets, the confirm keyboard event (`Event::Return`)
invokes the activation callback exactly once and returns consumed, for
every hit-region value and independently of any pointer position (the
event carries none) and of the capture input. -/
theorem confirm_key_activates
    (focused captureOk : Bool) (s : ButtonState)
    (opt : ButtonAnimatedOption) (sa : ButtonAnimatedState) :
    (Button.OnEvent focused captureOk s Event.Return).consumed = true ∧
    (Button.OnEvent focused captureOk s Event.Return).state.clicks
      = s.clicks + 1 ∧
    (ButtonAnimated.OnEvent opt focused captureOk sa Event.Return).consumed
      = true ∧
    (ButtonAnimated.OnEvent opt focused captureOk sa Event.Return).state.clicks
      = sa.clicks + 1 := by
  simp [Button.OnEvent, ButtonAnimated.OnEvent, ButtonAnimated.OnClick,
        ButtonAnimated.SetAnimationTarget]

/-- C6: before the first render, `box_` is stale (embedded as `none`,
treated as empty/non-containing per the spec); every mouse event then
takes the outside-region branch: not consumed, no capture request, no
focus request, no callback, state unchanged — and the hit test is a
total function, so no crash is possible. -/
theorem stale_region_mouse_no_effect
    (focused captureOk : Bool) (n : Nat)
    (opt : ButtonAnimatedOption) (k : Nat) (a : ℚ) (an : Animator)
    (m : Mouse) :
    Button.OnEvent focused captureOk ⟨none, n⟩ (Event.mouse m)
      = ⟨false, ⟨none, n⟩, false, false⟩ ∧
    ButtonAnimated.OnEvent opt focused captureOk ⟨none, k, a, an⟩
        (Event.mouse m)
      = ⟨false, ⟨none, k, a, an⟩, false, false⟩ := by
  simp [Button.OnEvent, ButtonAnimated.OnEvent, containOpt]

end Ftxui

namespace Ftxui

/-- C7 counterexample: with the default `ButtonAnimatedOption`, whose
`border` field is `some LIGHT` (the option says a border should show),
`ButtonAnimated::Impl::Render` still composes the constant
`borderEmpty` decorator — no visible border — so border visibility is
not determined by the option and the claimed equivalence fails. -/
theorem animated_border_ignores_option_counterexample :
    ¬ (((ButtonAnimated.Render ButtonAnimatedOption.default "OK" false
          (ButtonAnimatedState.init none) ⟨0, 2, 0, 1⟩).1.my_border
          = BorderDeco.border)
        ↔ ButtonAnimatedOption.default.border.isSome = true) := by
  decide

/-- C7 amended: `Button`'s rendered output shows a border exactly when
its `ButtonOption.border` flag is true; `ButtonAnimated`'s rendered
output always composes the `borderEmpty` decorator, ignoring the
`border` field of its option. -/
theorem border_follows_option_amended
    (opt : ButtonOption) (aopt : ButtonAnimatedOption) (label : String)
    (focused afocused : Bool) (s : ButtonState)
    (sa : ButtonAnimatedState) (layout : Box) :
    ((Button.Render opt label focused s layout).1.my_border
        = BorderDeco.border ↔ opt.border = true) ∧
    (ButtonAnimated.Render aopt label afocused sa layout).1.my_border
      = BorderDeco.borderEmpty := by
  cases h : opt.border <;>
    simp [Button.Render, ButtonAnimated.Render, h,
          ButtonAnimated.SetAnimationTarget]

/-- `ButtonAnimated::Impl::Render` never writes `animation_`: the
successor state keeps the intensity of the input state. -/
theorem ButtonAnimated.Render_animation (opt : ButtonAnimatedOption)
    (label : String) (focused : Bool) (sa : ButtonAnimatedState)
    (layout : Box) :
    (ButtonAnimated.Render opt label focused sa layout).2.animation
      = sa.animation := by
  by_cases h : (if focused then (1 : ℚ) else 0) = sa.animator.to_ <;>
    simp [ButtonAnimated.Render, ButtonAnimated.SetAnimationTarget, h]

/-- The render description `ButtonAnimated::Impl::Render` produces
depends only on the option, the label and the input intensity. -/
theorem ButtonAnimated.Render_fst (opt : ButtonAnimatedOption)
    (label : String) (focused : Bool) (sa : ButtonAnimatedState)
    (layout : Box) :
    (ButtonAnimated.Render opt label focused sa layout).1
      = ⟨label, BorderDeco.borderEmpty,
         ⟨sa.animation, opt.foreground_color, opt.foreground_color_focused⟩,
         ⟨sa.animation, opt.background_color,
          opt.background_color_focused⟩⟩ := by
  by_cases h : (if focused then (1 : ℚ) else 0) = sa.animator.to_ <;>
    simp [ButtonAnimated.Render, ButtonAnimated.SetAnimationTarget, h]

/-- `ButtonAnimated::Impl::Render` records the layout rectangle into
`box_`. -/
theorem ButtonAnimated.Render_box (opt : ButtonAnimatedOption)
    (label : String) (focused : Bool) (sa : ButtonAnimatedState)
    (layout : Box) :
    (ButtonAnimated.Render opt label focused sa layout).2.box
      = some layout := by
  by_cases h : (if focused then (1 : ℚ) else 0) = sa.animator.to_ <;>
    simp [ButtonAnimated.Render, ButtonAnimated.SetAnimationTarget, h]

/-- C8: on every `ButtonAnimated::Impl::Render` call the animator is
retargeted to the desired target (1 when focused, 0 otherwise) exactly
when that target differs from `animator_.to()`, and is left untouched
otherwise; render never writes the intensity `animation_`; the only
other writer of the intensity in this fragment is the activation
perturbation `OnClick`, which sets it to 0.5. -/
theorem animated_render_retargets_iff_target_differs
    (opt : ButtonAnimatedOption) (label : String) (focused : Bool)
    (sa : ButtonAnimatedState) (layout : Box) :
    (ButtonAnimated.Render opt label focused sa layout).2.animation
      = sa.animation ∧
    (ButtonAnimated.Render opt label focused sa layout).2.animator
      = (if (if focused then (1 : ℚ) else 0) ≠ sa.animator.to_
         then ⟨if focused then (1 : ℚ) else 0,
               opt.animation_duration, opt.animation_easing⟩
         else sa.animator) ∧
    (ButtonAnimated.OnClick opt sa).animation = 1/2 := by
  by_cases h : (if focused then (1 : ℚ) else 0) = sa.animator.to_ <;>
    simp [ButtonAnimated.Render, ButtonAnimated.OnClick,
          ButtonAnimated.SetAnimationTarget, h]

/-- C9: for both widgets, two consecutive `Render` calls from the same
widget state, focus flag and layout rectangle (no intervening event or
animation tick) produce identical render descriptions and leave the
recorded hit region identical after each call. -/
theorem render_idempotent
    (opt : ButtonOption) (aopt : ButtonAnimatedOption) (label : String)
    (focused afocused : Bool) (s : ButtonState)
    (sa : ButtonAnimatedState) (layout : Box) :
    (Button.Render opt label focused
        (Button.Render opt label focused s layout).2 layout).1
      = (Button.Render opt label focused s layout).1 ∧
    (Button.Render opt label focused
        (Button.Render opt label focused s layout).2 layout).2.box
      = (Button.Render opt label focused s layout).2.box ∧
    (ButtonAnimated.Render aopt label afocused
        (ButtonAnimated.Render aopt label afocused sa layout).2 layout).1
      = (ButtonAnimated.Render aopt label afocused sa layout).1 ∧
    (ButtonAnimated.Render aopt label afocused
        (ButtonAnimated.Render aopt label afocused sa layout).2 layout).2.box
      = (ButtonAnimated.Render aopt label afocused sa layout).2.box := by
  refine ⟨rfl, rfl, ?_, ?_⟩
  · rw [ButtonAnimated.Render_fst, ButtonAnimated.Render_fst,
        ButtonAnimated.Render_animation]
  · rw [ButtonAnimated.Render_box, ButtonAnimated.Render_box]

/-- C10: the confirm keyboard path performs no focus check: for both
widgets, `OnEvent` with the focus flag false still invokes the callback
once and returns consumed on `Event::Return` (and requests no focus),
and for every event the outcome is identical whether the widget is
focused or not. -/
theorem confirm_key_ignores_focus
    (captureOk : Bool) (s : ButtonState)
    (opt : ButtonAnimatedOption) (sa : ButtonAnimatedState) :
    (Button.OnEvent false captureOk s Event.Return).consumed = true ∧
    (Button.OnEvent false captureOk s Event.Return).state.clicks
      = s.clicks + 1 ∧
    (Button.OnEvent false captureOk s Event.Return).focusRequested = false ∧
    (∀ e, Button.OnEvent true captureOk s e
            = Button.OnEvent false captureOk s e) ∧
    (ButtonAnimated.OnEvent opt false captureOk sa Event.Return).consumed
      = true ∧
    (ButtonAnimated.OnEvent opt false captureOk sa Event.Return).state.clicks
      = sa.clicks + 1 ∧
    (ButtonAnimated.OnEvent opt false captureOk sa Event.Return).focusRequested
      = false ∧
    (∀ e, ButtonAnimated.OnEvent opt true captureOk sa e
            = ButtonAnimated.OnEvent opt false captureOk sa e) := by
  refine ⟨rfl, ?_, rfl, fun e => rfl, rfl, ?_, rfl, fun e => rfl⟩ <;>
    simp [Button.OnEvent, ButtonAnimated.OnEvent, ButtonAnimated.OnClick,
          ButtonAnimated.SetAnimationTarget]

end Ftxui
